import Mathlib

/-!
Verification of the snippetly-vscode extension core (src/unnamed/part_000).

The TypeScript source is shallowly embedded: pure data flow becomes Lean
functions, the VS Code `globalState` memento becomes an explicit key-value
state, and the external collaborators (HTTP transport, JSON parser,
`encodeURIComponent`, `JSON.stringify`) become function parameters, since the
source treats them as opaque collaborators.

JavaScript truthiness matters in several places of the source and is modeled
explicitly: `!s.id` is true when `id` is `undefined` OR the empty string;
`query ? a : b` takes the `b` branch for `undefined` and for `""`; likewise
for the `apiKey` and `tagsInput` checks.
-/

namespace Snippetly

/-- Snippet record (source lines 10-19).  `id?`, `tags?`, `updatedAt?` are
optional fields. -/
structure Snippet where
  id : Option String
  title : String
  description : String
  code : String
  language : String
  tags : Option (List String)
  createdAt : String
  updatedAt : Option String
deriving Repr, DecidableEq, Inhabited

/-- JavaScript truthiness of an optional string: `undefined` and `""` are
falsy, every other string is truthy. -/
def truthy : Option String → Bool
  | none => false
  | some s => !s.isEmpty

/-- The guard `!s.id` used at source line 145 (`filter ((s) => !s.id)`):
a snippet is unsynced when its `id` is absent (or the empty string, which
JavaScript also treats as falsy). -/
def Snippet.unsynced (s : Snippet) : Bool :=
  !truthy s.id

/-- Outcome of the underlying node HTTP exchange, as seen by the callback in
`makeRequest`: either a response arrived (its status code may be missing) and
its body was accumulated, or the request emitted a transport error
(source line 53, `req.on("error", reject)`). -/
inductive TransportResult where
  | response (statusCode : Option Nat) (body : String)
  | transportFailure (message : String)
deriving Repr, DecidableEq

/-- Value a successful `makeRequest` resolves with (source lines 36-42):
`null` for an empty body, the parsed JSON for a parseable body, or the raw
body text when `JSON.parse` throws. -/
inductive ResponseValue (J : Type) where
  | null
  | parsed (j : J)
  | rawBody (body : String)
deriving Repr, DecidableEq

/-- The success test at source line 36:
`res.statusCode && res.statusCode >= 200 && res.statusCode < 300`.
A missing status code is falsy, as is status 0. -/
def statusSuccess : Option Nat → Bool
  | none => false
  | some n => (n != 0) && (decide (200 ≤ n)) && (decide (n < 300))

/-- String interpolation of a possibly-missing status code
(line 46: the template renders `undefined` when the code is absent). -/
def statusText : Option Nat → String
  | none => "undefined"
  | some n => toString n

/-- Lines 21-61, `makeRequest`.  The transport is the `TransportResult`
argument; `parse` stands for `JSON.parse` (returning `none` when it throws).
On a 2xx response an empty body resolves to `null`, otherwise the body is
parsed, falling back to the raw text; on a non-2xx response or a transport
failure the promise rejects, both failure causes flowing through the one
rejection channel as a plain error message. -/
def makeRequest {J : Type} (parse : String → Option J) :
    TransportResult → Except String (ResponseValue J)
  | .transportFailure message => .error message
  | .response statusCode body =>
      if statusSuccess statusCode then
        .ok (if body.isEmpty then .null
             else match parse body with
               | some j => .parsed j
               | none => .rawBody body)
      else
        .error ("Request failed with status " ++ statusText statusCode ++ ": " ++ body)

/-- Configuration of `SnippetlyAPI` after URL parsing (source lines 63-72):
host, port and protocol come from `new URL(config.apiUrl)`. -/
structure SnippetlyConfig where
  hostname : String
  port : String
  protocol : String
  apiKey : Option String
deriving Repr, DecidableEq

/-- Request options record (source lines 74-89). -/
structure RequestOptions where
  hostname : String
  port : String
  protocol : String
  path : String
  method : String
  headers : List (String × String)
deriving Repr, DecidableEq

/-- Lines 74-89, `getRequestOptions`: the `Authorization` header is attached
only when `apiKey` is truthy (the spread `...(this.apiKey && {...})`). -/
def getRequestOptions (cfg : SnippetlyConfig) (path : String) (method : String) :
    RequestOptions :=
  { hostname := cfg.hostname
    port := cfg.port
    protocol := cfg.protocol
    path := path
    method := method
    headers :=
      [("Content-Type", "application/json")] ++
        (match cfg.apiKey with
          | some k => if k.isEmpty then [] else [("Authorization", "Bearer " ++ k)]
          | none => []) }

/-- The request options built by `SnippetlyAPI.saveSnippet` (source lines
93-95): POST `/snippets`, with a `Content-Length` header for the serialized
body added to the header object. -/
def saveSnippetRequest (cfg : SnippetlyConfig) (stringify : Snippet → String)
    (snippet : Snippet) : RequestOptions :=
  let options := getRequestOptions cfg "/snippets" "POST"
  { options with
      headers := options.headers ++
        [("Content-Length", toString (stringify snippet).utf8ByteSize)] }

/-- Lines 91-102, `SnippetlyAPI.saveSnippet`: POST `/snippets` with the
serialized snippet (serializer `stringify` models `JSON.stringify`).
`server` models the remote end and transport together; the `catch` at line
98 logs and rethrows, so the result is exactly `makeRequest`'s. -/
def saveSnippet {J : Type} (cfg : SnippetlyConfig)
    (server : RequestOptions → Option String → TransportResult)
    (stringify : Snippet → String) (parse : String → Option J)
    (snippet : Snippet) : Except String (ResponseValue J) :=
  makeRequest parse
    (server (saveSnippetRequest cfg stringify snippet) (some (stringify snippet)))

/-- The path selection of lines 104-116 (`SnippetlyAPI.searchSnippets`):
`query ? "/snippets/search?q=" + enc(query) : "/snippets"` — `undefined` and
`""` are both falsy, so both select the plain collection path.  `encode`
models `encodeURIComponent`. -/
def searchPath (encode : String → String) (query : Option String) : String :=
  if truthy query then "/snippets/search?q=" ++ encode (query.getD "")
  else "/snippets"

/-- Lines 104-116, `SnippetlyAPI.searchSnippets`: a GET on the selected path;
the `catch` rethrows, so the result is exactly `makeRequest`'s. -/
def searchSnippets {J : Type} (cfg : SnippetlyConfig)
    (server : RequestOptions → Option String → TransportResult)
    (encode : String → String) (parse : String → Option J)
    (query : Option String) : Except String (ResponseValue J) :=
  makeRequest parse (server (getRequestOptions cfg (searchPath encode query) "GET") none)

/-- Lines 118-126, `SnippetlyAPI.deleteSnippet`: DELETE `/snippets/{id}`;
the resolved body is discarded (`await` then return void). -/
def deleteSnippet {J : Type} (cfg : SnippetlyConfig)
    (server : RequestOptions → Option String → TransportResult)
    (parse : String → Option J) (id : String) : Except String Unit :=
  (makeRequest parse (server (getRequestOptions cfg ("/snippets/" ++ id) "DELETE") none)).map
    (fun _ => ())

/-- The VS Code `globalState` memento, restricted to what this extension
stores: each key optionally holds a snippet sequence. -/
abbrev GlobalState : Type := String → Option (List Snippet)

/-- A memento `update key value`: writes one key, leaves every other key as
it was. -/
def GlobalState.update (g : GlobalState) (key : String) (value : List Snippet) :
    GlobalState :=
  fun k => if k = key then some value else g k

/-- Lines 139-141, `StorageService.getLocalSnippets`:
`globalState.get("snippets", [])`. -/
def getLocalSnippets (g : GlobalState) : List Snippet :=
  (g "snippets").getD []

/-- Lines 133-137, `StorageService.saveLocally`: read the sequence, push the
snippet, write the sequence back under the single key `"snippets"`. -/
def saveLocally (snippet : Snippet) (g : GlobalState) : GlobalState :=
  g.update "snippets" (getLocalSnippets g ++ [snippet])

/-- One iteration of the `for` loop at source lines 147-156.  The accumulator
is the mutable `localSnippets` array paired with the list of arguments passed
to `api.saveSnippet` so far; the pair `p` is an unsynced snippet together
with its position in `localSnippets`.  On success the slot at that position
is overwritten with the server's representation; on failure the slot is left
alone and the error is only logged. -/
def syncFoldStep (api : Snippet → Except String Snippet)
    (acc : List Snippet × List Snippet) (p : Nat × Snippet) :
    List Snippet × List Snippet :=
  match api p.2 with
  | .ok saved => (acc.1.set p.1 saved, acc.2 ++ [p.2])
  | .error _ => (acc.1, acc.2 ++ [p.2])

/-- Lines 144-156 of `StorageService.syncWithAPI`: filter the unsynced
snippets, then push each to the API, writing successes back into the same
slot.  The source locates the slot with `localSnippets.indexOf(snippet)`;
JavaScript `indexOf` compares object references and every element of the
array is a distinct object, so it returns the snippet's original position,
which the embedding records by pairing each unsynced snippet with its index
up front.  Returns the final array and the list of `create` call
arguments in call order. -/
def syncLoop (api : Snippet → Except String Snippet)
    (localSnippets : List Snippet) : List Snippet × List Snippet :=
  let unsyncedSnippets := localSnippets.enum.filter (fun p => p.2.unsynced)
  unsyncedSnippets.foldl (syncFoldStep api) (localSnippets, [])

/-- Result of one `syncWithAPI` invocation: the new memento state, the
arguments of the remote `create` calls issued (in order), and the writes
performed on the memento (key, value). -/
structure SyncRun where
  state : GlobalState
  createCalls : List Snippet
  writes : List (String × List Snippet)

/-- Lines 143-159, `StorageService.syncWithAPI`: read the local sequence, run
the reconciliation loop, and persist the full resulting sequence with a
single `globalState.update` after the loop. -/
def syncWithAPI (api : Snippet → Except String Snippet) (g : GlobalState) :
    SyncRun :=
  let localSnippets := getLocalSnippets g
  let r := syncLoop api localSnippets
  { state := g.update "snippets" r.1
    createCalls := r.2
    writes := [("snippets", r.1)] }

/-- The effect of the loop on one slot, abstracting source lines 147-156: an
unsynced snippet is replaced by the server representation when its `create`
succeeds and kept when it fails; a synced snippet is never touched.  The
theorem `syncLoop_eq` proves `syncLoop` equal to mapping this step. -/
def syncStep (api : Snippet → Except String Snippet) (s : Snippet) : Snippet :=
  if s.unsynced then
    match api s with
    | .ok saved => saved
    | .error _ => s
  else s

/-- The tag parsing at source lines 222-227: falsy (absent or empty) input
yields no tags; otherwise split on commas, trim, and drop empties. -/
def parseTags (tagsInput : Option String) : List String :=
  if truthy tagsInput then
    (((tagsInput.getD "").splitOn ",").map String.trim).filter
      (fun tag => !tag.isEmpty)
  else []

/-- The snippet literal built by the save command (source lines 229-236).
No `id` is assigned locally: the literal simply lacks the field.
The `description.getD ""` models `description || ""`. -/
def buildSnippet (title : String) (description : Option String)
    (selectedText : String) (languageId : String) (tagsInput : Option String)
    (createdAt : String) : Snippet :=
  { id := none
    title := title
    description := description.getD ""
    code := selectedText
    language := languageId
    tags := some (parseTags tagsInput)
    createdAt := createdAt
    updatedAt := none }

/-- The three terminal outcomes of a save (source lines 238-268): info
message after a remote-and-local save, info message after a plain local save,
and a warning message after the local fallback of a failed remote save. -/
inductive SaveOutcome where
  | savedRemoteAndLocal
  | savedLocal
  | savedLocalFallback
deriving Repr, DecidableEq

/-- Whether the outcome is reported through `showWarningMessage` (line 265)
rather than `showInformationMessage`. -/
def SaveOutcome.isWarning : SaveOutcome → Bool
  | .savedLocalFallback => true
  | _ => false

/-- Lines 238-268 of the save command.  In remote mode a successful `create`
stores the server's returned representation locally; any rejection is caught
by the `catch` at line 262, which stores the original snippet and shows a
warning — the function is total, so no error escapes to the caller.  In
local-only mode the snippet is stored directly. -/
def saveCommand (useAPI : Bool) (api : Snippet → Except String Snippet)
    (snippet : Snippet) (g : GlobalState) : GlobalState × SaveOutcome :=
  if useAPI then
    match api snippet with
    | .ok savedSnippet => (saveLocally savedSnippet g, .savedRemoteAndLocal)
    | .error _ => (saveLocally snippet g, .savedLocalFallback)
  else
    (saveLocally snippet g, .savedLocal)

/-- Result of one confirmed delete: the new memento state, the ids passed to
`api.deleteSnippet`, and the remote-delete errors that were logged (line 419)
but never surfaced. -/
structure DeleteRun where
  state : GlobalState
  remoteDeleteCalls : List String
  remoteDeleteFailures : List String

/-- Lines 408-426 of the delete command, after the user confirmed.  `selIdx`
is the position of the chosen snippet; `snippets.indexOf(selected.snippet)`
compares object references and the selected item is an element of the same
array, so the index equals `selIdx` and `splice(index, 1)` removes that slot.
The local removal is persisted first; only then, when `useAPI` is on and the
snippet's `id` is truthy, is the remote delete attempted, its failure being
caught and logged.  The out-of-range branch is unreachable because the quick
pick only offers elements of the list. -/
def deleteCommand (useAPI : Bool) (apiDelete : String → Except String Unit)
    (selIdx : Nat) (g : GlobalState) : DeleteRun :=
  let snippets := getLocalSnippets g
  match snippets[selIdx]? with
  | none => { state := g, remoteDeleteCalls := [], remoteDeleteFailures := [] }
  | some sel =>
      let g2 := g.update "snippets" (snippets.eraseIdx selIdx)
      if useAPI && truthy sel.id then
        match apiDelete (sel.id.getD "") with
        | .ok _ =>
            { state := g2
              remoteDeleteCalls := [sel.id.getD ""]
              remoteDeleteFailures := [] }
        | .error e =>
            { state := g2
              remoteDeleteCalls := [sel.id.getD ""]
              remoteDeleteFailures := [e] }
      else
        { state := g2, remoteDeleteCalls := [], remoteDeleteFailures := [] }

/-- Success range of `makeRequest` as the spec words it: the transport
delivered a response whose status is between 200 and 299 inclusive. -/
def TransportResult.isSuccessStatus : TransportResult → Prop := fun t =>
  ∃ n body, t = .response (some n) body ∧ 200 ≤ n ∧ n ≤ 299

/-! Concrete fixtures used by the witness theorems. -/

/-- A memento holding the given sequence under the snippets key and nothing
else. -/
def stateOf (l : List Snippet) : GlobalState :=
  fun k => if k = "snippets" then some l else none

/-- Fixture: an unsynced snippet titled A. -/
def snipA : Snippet :=
  { id := none, title := "A", description := "first", code := "code-a"
    language := "ts", tags := some ["algo"]
    createdAt := "2024-01-01T00:00:00Z", updatedAt := none }

/-- Fixture: an unsynced snippet titled B. -/
def snipB : Snippet :=
  { snipA with title := "B", description := "second", code := "code-b" }

/-- Fixture: an unsynced snippet titled C. -/
def snipC : Snippet :=
  { snipA with title := "C", description := "third", code := "code-c" }

/-- Fixture: a synced snippet carrying server id 5. -/
def snipB5 : Snippet :=
  { snipA with id := some "5", title := "B5", code := "code-b5" }

/-- Fixture: `snipA` as returned by a server that assigned id 9. -/
def snipA9 : Snippet := { snipA with id := some "9" }

/-- Fixture: `snipC` as returned by a server that assigned id 9. -/
def snipC9 : Snippet := { snipC with id := some "9" }

/-- Fixture: a remote client whose `create` always succeeds, assigning
id 9. -/
def apiOk9 : Snippet → Except String Snippet :=
  fun s => Except.ok { s with id := some "9" }

/-- Fixture: a remote client whose `create` fails exactly on the snippet
titled B. -/
def apiFailB : Snippet → Except String Snippet :=
  fun s =>
    if s.title = "B" then Except.error "ECONNREFUSED"
    else Except.ok { s with id := some "9" }

/-- Fixture: a remote client that is unreachable. -/
def apiDown : Snippet → Except String Snippet :=
  fun _ => Except.error "ECONNREFUSED"

/-- Fixture: a remote delete that succeeds. -/
def apiDeleteOk : String → Except String Unit := fun _ => Except.ok ()

/-- Fixture: a remote delete that fails. -/
def apiDeleteDown : String → Except String Unit :=
  fun _ => Except.error "ECONNREFUSED"

/-- Fixture: a JSON parser stand-in returning the body length. -/
def parseLen : String → Option Nat := fun body => some body.length

/-- Fixture: a parsed endpoint configuration. -/
def cfg0 : SnippetlyConfig :=
  { hostname := "localhost", port := "3000", protocol := "http:"
    apiKey := none }

/-- Fixture: a server always answering 200 with an empty body. -/
def server200 : RequestOptions → Option String → TransportResult :=
  fun _ _ => TransportResult.response (some 200) ""

/-! Helper lemmas about the reconciliation loop. -/

theorem syncFold_calls (api : Snippet → Except String Snippet)
    (ps : List (Nat × Snippet)) (acc : List Snippet × List Snippet) :
    (ps.foldl (syncFoldStep api) acc).2 = acc.2 ++ ps.map Prod.snd := by
  induction ps generalizing acc with
  | nil => simp
  | cons p ps ih =>
      rw [List.foldl_cons, ih]
      cases h : api p.2 <;> simp [syncFoldStep, h]

theorem syncFold_length (api : Snippet → Except String Snippet)
    (ps : List (Nat × Snippet)) (acc : List Snippet × List Snippet) :
    (ps.foldl (syncFoldStep api) acc).1.length = acc.1.length := by
  induction ps generalizing acc with
  | nil => rfl
  | cons p ps ih =>
      rw [List.foldl_cons, ih]
      cases h : api p.2 <;> simp [syncFoldStep, h]

theorem syncFold_getElem_of_notMem (api : Snippet → Except String Snippet)
    (ps : List (Nat × Snippet)) (j : Nat) :
    ∀ acc : List Snippet × List Snippet, j ∉ ps.map Prod.fst →
      ((ps.foldl (syncFoldStep api) acc).1)[j]? = acc.1[j]? := by
  induction ps with
  | nil => intro acc _; rfl
  | cons p ps ih =>
      intro acc hj
      rw [List.map_cons, List.mem_cons] at hj
      push_neg at hj
      rw [List.foldl_cons, ih (syncFoldStep api acc p) hj.2]
      cases h : api p.2 with
      | ok saved => simp [syncFoldStep, h, List.getElem?_set_ne (Ne.symm hj.1)]
      | error e => simp [syncFoldStep, h]

theorem syncFold_getElem_of_mem (api : Snippet → Except String Snippet)
    (ps : List (Nat × Snippet)) (j : Nat) (s : Snippet) :
    ∀ acc : List Snippet × List Snippet, (ps.map Prod.fst).Nodup →
      (j, s) ∈ ps → j < acc.1.length →
      ((ps.foldl (syncFoldStep api) acc).1)[j]? =
        (match api s with
          | .ok saved => some saved
          | .error _ => acc.1[j]?) := by
  induction ps with
  | nil => intro acc _ hmem _; cases hmem
  | cons p ps ih =>
      intro acc hnd hmem hlen
      obtain ⟨i, t⟩ := p
      rw [List.map_cons, List.nodup_cons] at hnd
      rw [List.foldl_cons]
      rcases List.mem_cons.mp hmem with heq | hm
      · rw [Prod.mk.injEq] at heq
        obtain ⟨h1, h2⟩ := heq
        subst h1
        subst h2
        rw [syncFold_getElem_of_notMem api ps j (syncFoldStep api acc (j, s)) hnd.1]
        cases h : api s with
        | ok saved => simp [syncFoldStep, h, List.getElem?_set_eq_of_lt saved hlen]
        | error e => simp [syncFoldStep, h]
      · have hjmem : j ∈ ps.map Prod.fst := by
          simpa using List.mem_map_of_mem Prod.fst hm
        have hne : i ≠ j := by
          intro h
          rw [h] at hnd
          exact hnd.1 hjmem
        have hlen2 : j < (syncFoldStep api acc (i, t)).1.length := by
          cases h : api t <;> simpa [syncFoldStep, h] using hlen
        rw [ih (syncFoldStep api acc (i, t)) hnd.2 hm hlen2]
        cases h : api s with
        | ok saved => simp
        | error e =>
            cases h2 : api t <;>
              simp [syncFoldStep, h2, List.getElem?_set_ne hne]

theorem filter_snd_map (P : Snippet → Bool) (ps : List (Nat × Snippet)) :
    (ps.filter (fun p => P p.2)).map Prod.snd = (ps.map Prod.snd).filter P := by
  induction ps with
  | nil => rfl
  | cons p ps ih => cases h : P p.2 <;> simp [List.filter_cons, h, ih]

theorem sync_keys_nodup (l : List Snippet) :
    ((l.enum.filter (fun p => p.2.unsynced)).map Prod.fst).Nodup := by
  have h1 : List.Sublist ((l.enum.filter (fun p => p.2.unsynced)).map Prod.fst)
      (l.enum.map Prod.fst) := (List.filter_sublist l.enum).map Prod.fst
  rw [List.enum_map_fst] at h1
  exact (List.nodup_range l.length).sublist h1

/-- The reconciliation loop is the pointwise `syncStep` map, and its remote
`create` calls are exactly the unsynced snippets in sequence order. -/
theorem syncLoop_eq (api : Snippet → Except String Snippet) (l : List Snippet) :
    syncLoop api l = (l.map (syncStep api), l.filter (fun s => s.unsynced)) := by
  unfold syncLoop
  refine Prod.ext_iff.mpr ⟨?_, ?_⟩
  · show (List.foldl (syncFoldStep api) (l, [])
        (List.filter (fun p => p.2.unsynced) l.enum)).1 = l.map (syncStep api)
    refine List.ext_getElem? (fun j => ?_)
    by_cases hjl : j < l.length
    · have hjs : l[j]? = some l[j] := List.getElem?_eq_getElem hjl
      cases hu : (l[j]).unsynced with
      | true =>
          have hmem : (j, l[j]) ∈ l.enum.filter (fun p => p.2.unsynced) :=
            List.mem_filter.mpr
              ⟨List.mk_mem_enum_iff_getElem?.mpr hjs, by simpa using hu⟩
          rw [syncFold_getElem_of_mem api _ j (l[j]) (l, []) (sync_keys_nodup l)
            hmem hjl]
          rw [List.getElem?_map, hjs]
          cases h : api l[j] <;> simp [syncStep, hu, h, hjs]
      | false =>
          have hnot : j ∉ (l.enum.filter (fun p => p.2.unsynced)).map Prod.fst := by
            intro hj
            obtain ⟨p, hp, hpj⟩ := List.mem_map.mp hj
            obtain ⟨hpe, hpu⟩ := List.mem_filter.mp hp
            have hp2 : l[p.1]? = some p.2 := by
              obtain ⟨pi, pt⟩ := p
              exact List.mk_mem_enum_iff_getElem?.mp hpe
            rw [hpj, hjs] at hp2
            have hps : p.2 = l[j] := by
              injection hp2 with h
              exact h.symm
            rw [hps] at hpu
            simp [hu] at hpu
          rw [syncFold_getElem_of_notMem api _ j (l, []) hnot]
          rw [List.getElem?_map, hjs]
          simp [syncStep, hu]
    · have hle : l.length ≤ j := Nat.le_of_not_lt hjl
      have h1 : (List.foldl (syncFoldStep api) (l, [])
          (List.filter (fun p => p.2.unsynced) l.enum)).1.length = l.length :=
        syncFold_length api _ _
      rw [List.getElem?_eq_none (show (List.foldl (syncFoldStep api) (l, [])
          (List.filter (fun p => p.2.unsynced) l.enum)).1.length ≤ j by
            rw [h1]; exact hle),
        List.getElem?_eq_none (by simpa using hle)]
  · show (List.foldl (syncFoldStep api) (l, [])
        (List.filter (fun p => p.2.unsynced) l.enum)).2
        = l.filter (fun s => s.unsynced)
    rw [syncFold_calls, filter_snd_map, List.enum_map_snd]
    rfl

/-- Updating the snippets key and reading it back. -/
theorem getLocalSnippets_update (g : GlobalState) (v : List Snippet) :
    getLocalSnippets (g.update "snippets" v) = v := by
  simp [getLocalSnippets, GlobalState.update]

/-- The sequence persisted by `syncWithAPI` is the pointwise `syncStep` image
of the sequence it read. -/
theorem syncWithAPI_state (api : Snippet → Except String Snippet)
    (g : GlobalState) :
    getLocalSnippets (syncWithAPI api g).state
      = (getLocalSnippets g).map (syncStep api) := by
  show getLocalSnippets
      (g.update "snippets" (syncLoop api (getLocalSnippets g)).1) = _
  rw [getLocalSnippets_update, syncLoop_eq]

/-- The remote `create` calls of `syncWithAPI` are exactly the unsynced
snippets of the sequence it read, in order. -/
theorem syncWithAPI_calls (api : Snippet → Except String Snippet)
    (g : GlobalState) :
    (syncWithAPI api g).createCalls
      = (getLocalSnippets g).filter (fun s => s.unsynced) := by
  show (syncLoop api (getLocalSnippets g)).2 = _
  rw [syncLoop_eq]

/-- `syncWithAPI` performs exactly one memento write: the full final
sequence under the snippets key. -/
theorem syncWithAPI_writes (api : Snippet → Except String Snippet)
    (g : GlobalState) :
    (syncWithAPI api g).writes
      = [("snippets", (getLocalSnippets g).map (syncStep api))] := by
  show [("snippets", (syncLoop api (getLocalSnippets g)).1)] = _
  rw [syncLoop_eq]

/-! Claim theorems. -/

/-- Claim C3: sync selects only snippets whose id is absent (every remote
`create` argument is unsynced), and when every `create` of the first run
succeeds — returning, per the remote contract, a representation carrying an
id — a second sync issues zero remote `create` calls, so no snippet is
duplicated remotely by the retry. -/
theorem sync_idempotent (api : Snippet → Except String Snippet)
    (g : GlobalState)
    (hok : ∀ s : Snippet, s ∈ getLocalSnippets g → s.unsynced = true →
      ∃ t : Snippet, api s = Except.ok t ∧ t.unsynced = false) :
    (∀ s : Snippet, s ∈ (syncWithAPI api g).createCalls → s.unsynced = true) ∧
    (syncWithAPI api (syncWithAPI api g).state).createCalls = [] := by
  constructor
  · intro s hs
    rw [syncWithAPI_calls] at hs
    exact (List.mem_filter.mp hs).2
  · rw [syncWithAPI_calls, syncWithAPI_state]
    rw [List.filter_eq_nil_iff]
    intro s hs
    obtain ⟨a, ha, rfl⟩ := List.mem_map.mp hs
    cases hu : a.unsynced with
    | true =>
        obtain ⟨t, hat, htu⟩ := hok a ha hu
        simp [syncStep, hu, hat, htu]
    | false => simp [syncStep, hu]

/-- Witness for C3: syncing `[snipA, snipB5]` against an always-succeeding
remote calls `create` only on unsynced snippets, and a second sync issues no
`create` call at all. -/
theorem sync_idempotent_witness :
    (∀ s : Snippet, s ∈ (syncWithAPI apiOk9 (stateOf [snipA, snipB5])).createCalls →
      s.unsynced = true) ∧
    (syncWithAPI apiOk9
      (syncWithAPI apiOk9 (stateOf [snipA, snipB5])).state).createCalls = [] :=
  sync_idempotent apiOk9 (stateOf [snipA, snipB5])
    (fun s _ _ => ⟨{ s with id := some "9" }, rfl, rfl⟩)

/-- Claim C4: sync preserves the sequence length, replaces each pending
snippet whose `create` succeeded in its own slot with the server-returned
representation, leaves synced snippets and failed slots unchanged, and
persists the full resulting sequence through exactly one write of the
snippets key. -/
theorem sync_preserves_order_single_replaceAll
    (api : Snippet → Except String Snippet) (g : GlobalState) :
    (getLocalSnippets (syncWithAPI api g).state).length
        = (getLocalSnippets g).length ∧
    (∀ i : Nat, ∀ s : Snippet, (getLocalSnippets g)[i]? = some s →
      s.unsynced = false →
      (getLocalSnippets (syncWithAPI api g).state)[i]? = some s) ∧
    (∀ i : Nat, ∀ s saved : Snippet, (getLocalSnippets g)[i]? = some s →
      s.unsynced = true → api s = Except.ok saved →
      (getLocalSnippets (syncWithAPI api g).state)[i]? = some saved) ∧
    (∀ i : Nat, ∀ s : Snippet, ∀ e : String, (getLocalSnippets g)[i]? = some s →
      s.unsynced = true → api s = Except.error e →
      (getLocalSnippets (syncWithAPI api g).state)[i]? = some s) ∧
    (syncWithAPI api g).writes
        = [("snippets", getLocalSnippets (syncWithAPI api g).state)] := by
  refine ⟨?_, ?_, ?_, ?_, ?_⟩
  · rw [syncWithAPI_state, List.length_map]
  · intro i s hi hu
    rw [syncWithAPI_state, List.getElem?_map, hi]
    simp [syncStep, hu]
  · intro i s saved hi hu hapi
    rw [syncWithAPI_state, List.getElem?_map, hi]
    simp [syncStep, hu, hapi]
  · intro i s e hi hu hapi
    rw [syncWithAPI_state, List.getElem?_map, hi]
    simp [syncStep, hu, hapi]
  · rw [syncWithAPI_writes, syncWithAPI_state]

/-- Witness for C4, the spec's example: syncing `[A(no id), B(id 5)]` where
`create(A)` returns id 9 yields `[A(id 9), B(id 5)]`, written once. -/
theorem sync_preserves_order_single_replaceAll_witness :
    (getLocalSnippets (syncWithAPI apiOk9 (stateOf [snipA, snipB5])).state)[0]?
        = some snipA9 ∧
    (getLocalSnippets (syncWithAPI apiOk9 (stateOf [snipA, snipB5])).state)[1]?
        = some snipB5 ∧
    (getLocalSnippets (syncWithAPI apiOk9 (stateOf [snipA, snipB5])).state).length
        = 2 ∧
    (syncWithAPI apiOk9 (stateOf [snipA, snipB5])).writes
        = [("snippets",
            getLocalSnippets (syncWithAPI apiOk9 (stateOf [snipA, snipB5])).state)] := by
  obtain ⟨hlen, hkeep, hgood, hbad, hw⟩ :=
    sync_preserves_order_single_replaceAll apiOk9 (stateOf [snipA, snipB5])
  exact ⟨hgood 0 snipA snipA9 rfl rfl rfl, hkeep 1 snipB5 rfl rfl,
    by rw [hlen]; rfl, hw⟩

/-- Claim C5: with three pending snippets where the second `create` fails,
the first and third slots are replaced by the server representations, the
second slot keeps its unsynced snippet, the length is unchanged, and the
failure does not stop the loop: all three snippets are submitted. -/
theorem sync_partial_failure_isolated (api : Snippet → Except String Snippet)
    (g : GlobalState) (a b c a2 c2 : Snippet) (e : String)
    (hl : getLocalSnippets g = [a, b, c])
    (ha : a.unsynced = true) (hb : b.unsynced = true) (hc : c.unsynced = true)
    (hapia : api a = Except.ok a2) (hapib : api b = Except.error e)
    (hapic : api c = Except.ok c2)
    (ha2 : a2.unsynced = false) (hc2 : c2.unsynced = false) :
    getLocalSnippets (syncWithAPI api g).state = [a2, b, c2] ∧
    (getLocalSnippets (syncWithAPI api g).state).length
        = (getLocalSnippets g).length ∧
    ((getLocalSnippets (syncWithAPI api g).state)[0]?).map Snippet.unsynced
        = some false ∧
    ((getLocalSnippets (syncWithAPI api g).state)[1]?).map Snippet.unsynced
        = some true ∧
    ((getLocalSnippets (syncWithAPI api g).state)[2]?).map Snippet.unsynced
        = some false ∧
    (syncWithAPI api g).createCalls = [a, b, c] := by
  have hstate : getLocalSnippets (syncWithAPI api g).state = [a2, b, c2] := by
    rw [syncWithAPI_state, hl]
    simp [syncStep, ha, hb, hc, hapia, hapib, hapic]
  refine ⟨hstate, ?_, ?_, ?_, ?_, ?_⟩
  · rw [hstate, hl]
    rfl
  · rw [hstate]; simpa using ha2
  · rw [hstate]; simpa using hb
  · rw [hstate]; simpa using hc2
  · rw [syncWithAPI_calls, hl]
    simp [ha, hb, hc]

/-- Witness for C5 at `[snipA, snipB, snipC]` with a remote client failing
exactly on B. -/
theorem sync_partial_failure_isolated_witness :
    getLocalSnippets (syncWithAPI apiFailB (stateOf [snipA, snipB, snipC])).state
        = [snipA9, snipB, snipC9] ∧
    (getLocalSnippets (syncWithAPI apiFailB (stateOf [snipA, snipB, snipC])).state).length
        = (getLocalSnippets (stateOf [snipA, snipB, snipC])).length ∧
    ((getLocalSnippets
        (syncWithAPI apiFailB (stateOf [snipA, snipB, snipC])).state)[0]?).map
          Snippet.unsynced = some false ∧
    ((getLocalSnippets
        (syncWithAPI apiFailB (stateOf [snipA, snipB, snipC])).state)[1]?).map
          Snippet.unsynced = some true ∧
    ((getLocalSnippets
        (syncWithAPI apiFailB (stateOf [snipA, snipB, snipC])).state)[2]?).map
          Snippet.unsynced = some false ∧
    (syncWithAPI apiFailB (stateOf [snipA, snipB, snipC])).createCalls
        = [snipA, snipB, snipC] :=
  sync_partial_failure_isolated apiFailB (stateOf [snipA, snipB, snipC])
    snipA snipB snipC snipA9 snipC9 "ECONNREFUSED"
    rfl rfl rfl rfl rfl rfl rfl rfl rfl

/-- Claim C1: in remote-enabled mode, when the remote `create` fails the
original, still id-less snippet is appended to the local store, the save
returns normally (the embedded command is a total function into the three
terminal outcomes, so no error reaches the caller), and the outcome is the
warning-level fallback, distinct from the success outcome. -/
theorem save_remote_failure_falls_back_to_local
    (api : Snippet → Except String Snippet) (snippet : Snippet)
    (g : GlobalState) (e : String)
    (hid : snippet.id = none) (hapi : api snippet = Except.error e) :
    getLocalSnippets (saveCommand true api snippet g).1
        = getLocalSnippets g ++ [snippet] ∧
    (getLocalSnippets (saveCommand true api snippet g).1).getLast?
        = some snippet ∧
    ((getLocalSnippets (saveCommand true api snippet g).1).getLast?.map
        Snippet.id) = some none ∧
    (saveCommand true api snippet g).2 = SaveOutcome.savedLocalFallback ∧
    SaveOutcome.savedLocalFallback ≠ SaveOutcome.savedRemoteAndLocal ∧
    (saveCommand true api snippet g).2.isWarning = true := by
  have hlist : getLocalSnippets (saveCommand true api snippet g).1
      = getLocalSnippets g ++ [snippet] := by
    simp [saveCommand, hapi, saveLocally, getLocalSnippets_update]
  refine ⟨hlist, ?_, ?_, ?_, ?_, ?_⟩
  · rw [hlist, List.getLast?_concat]
  · rw [hlist, List.getLast?_concat]
    simp [hid]
  · simp [saveCommand, hapi]
  · intro h
    cases h
  · simp [saveCommand, hapi, SaveOutcome.isWarning]

/-- Witness for C1: an unreachable remote while saving `snipA` over a store
holding `snipB5`. -/
theorem save_remote_failure_falls_back_to_local_witness :
    getLocalSnippets (saveCommand true apiDown snipA (stateOf [snipB5])).1
        = [snipB5, snipA] ∧
    (saveCommand true apiDown snipA (stateOf [snipB5])).2
        = SaveOutcome.savedLocalFallback ∧
    (saveCommand true apiDown snipA (stateOf [snipB5])).2.isWarning = true := by
  obtain ⟨h1, h2, h3, h4, h5, h6⟩ :=
    save_remote_failure_falls_back_to_local apiDown snipA (stateOf [snipB5])
      "ECONNREFUSED" rfl rfl
  exact ⟨h1, h4, h6⟩

/-- Claim C2: in remote-enabled mode, when the remote `create` succeeds the
element appended locally is the server's returned representation, so it
carries the id the remote client returned. -/
theorem save_remote_success_stores_server_id
    (api : Snippet → Except String Snippet) (snippet savedSnippet : Snippet)
    (g : GlobalState) (hapi : api snippet = Except.ok savedSnippet) :
    getLocalSnippets (saveCommand true api snippet g).1
        = getLocalSnippets g ++ [savedSnippet] ∧
    (getLocalSnippets (saveCommand true api snippet g).1).getLast?
        = some savedSnippet ∧
    ((getLocalSnippets (saveCommand true api snippet g).1).getLast?.map
        Snippet.id) = some savedSnippet.id ∧
    (saveCommand true api snippet g).2 = SaveOutcome.savedRemoteAndLocal := by
  have hlist : getLocalSnippets (saveCommand true api snippet g).1
      = getLocalSnippets g ++ [savedSnippet] := by
    simp [saveCommand, hapi, saveLocally, getLocalSnippets_update]
  refine ⟨hlist, ?_, ?_, ?_⟩
  · rw [hlist, List.getLast?_concat]
  · rw [hlist, List.getLast?_concat]
    rfl
  · simp [saveCommand, hapi]

/-- Witness for C2: a remote client assigning id 9 while saving `snipA`. -/
theorem save_remote_success_stores_server_id_witness :
    getLocalSnippets (saveCommand true apiOk9 snipA (stateOf [])).1
        = [snipA9] ∧
    ((getLocalSnippets (saveCommand true apiOk9 snipA (stateOf [])).1).getLast?.map
        Snippet.id) = some (some "9") ∧
    (saveCommand true apiOk9 snipA (stateOf [])).2
        = SaveOutcome.savedRemoteAndLocal := by
  obtain ⟨h1, h2, h3, h4⟩ :=
    save_remote_success_stores_server_id apiOk9 snipA snipA9 (stateOf []) rfl
  exact ⟨h1, h3, h4⟩

/-- Claim C6: in local-only mode, saving appends exactly one element, the
id-less snippet itself, and reports the local-save outcome. -/
theorem save_local_only_appends_one
    (api : Snippet → Except String Snippet) (snippet : Snippet)
    (g : GlobalState) (hid : snippet.id = none) :
    (getLocalSnippets (saveCommand false api snippet g).1).length
        = (getLocalSnippets g).length + 1 ∧
    getLocalSnippets (saveCommand false api snippet g).1
        = getLocalSnippets g ++ [snippet] ∧
    (getLocalSnippets (saveCommand false api snippet g).1).getLast?
        = some snippet ∧
    ((getLocalSnippets (saveCommand false api snippet g).1).getLast?.map
        Snippet.id) = some none ∧
    (saveCommand false api snippet g).2 = SaveOutcome.savedLocal := by
  have hlist : getLocalSnippets (saveCommand false api snippet g).1
      = getLocalSnippets g ++ [snippet] := by
    simp [saveCommand, saveLocally, getLocalSnippets_update]
  refine ⟨?_, hlist, ?_, ?_, ?_⟩
  · rw [hlist]
    simp
  · rw [hlist, List.getLast?_concat]
  · rw [hlist, List.getLast?_concat]
    simp [hid]
  · simp [saveCommand]

/-- Witness for C6: a local-only save of `snipA` over an empty store. -/
theorem save_local_only_appends_one_witness :
    (getLocalSnippets (saveCommand false apiDown snipA (stateOf [])).1).length
        = 1 ∧
    getLocalSnippets (saveCommand false apiDown snipA (stateOf [])).1
        = [snipA] ∧
    (saveCommand false apiDown snipA (stateOf [])).2
        = SaveOutcome.savedLocal := by
  obtain ⟨h1, h2, h3, h4, h5⟩ :=
    save_local_only_appends_one apiDown snipA (stateOf []) rfl
  exact ⟨h1, h2, h5⟩

/-- Claim C7: a confirmed delete of a snippet with no id never calls the
remote client; with remote mode on and a (truthy) id present, the remote
delete is called with that id, and in every case — remote delete succeeding
or failing — the entry is removed from the local sequence (the resulting
state does not depend on the remote delete's outcome; its failure is only
logged). -/
theorem delete_remote_only_when_synced
    (useAPI : Bool) (apiDelete apiDelete2 : String → Except String Unit)
    (selIdx : Nat) (g : GlobalState) (sel : Snippet)
    (hsel : (getLocalSnippets g)[selIdx]? = some sel) :
    getLocalSnippets (deleteCommand useAPI apiDelete selIdx g).state
        = (getLocalSnippets g).eraseIdx selIdx ∧
    (deleteCommand useAPI apiDelete selIdx g).state
        = (deleteCommand useAPI apiDelete2 selIdx g).state ∧
    (sel.id = none →
      (deleteCommand useAPI apiDelete selIdx g).remoteDeleteCalls = []) ∧
    (∀ i : String, sel.id = some i → i.isEmpty = false → useAPI = true →
      (deleteCommand useAPI apiDelete selIdx g).remoteDeleteCalls = [i]) := by
  refine ⟨?_, ?_, ?_, ?_⟩
  · simp only [deleteCommand, hsel]
    cases h : useAPI && truthy sel.id with
    | true =>
        cases h2 : apiDelete (sel.id.getD "") <;>
          simp [h, h2, getLocalSnippets_update]
    | false => simp [h, getLocalSnippets_update]
  · simp only [deleteCommand, hsel]
    cases h : useAPI && truthy sel.id with
    | true =>
        cases h2 : apiDelete (sel.id.getD "") <;>
          cases h3 : apiDelete2 (sel.id.getD "") <;> simp [h, h2, h3]
    | false => simp [h]
  · intro hidn
    have ht : truthy sel.id = false := by rw [hidn]; rfl
    simp [deleteCommand, hsel, ht]
  · intro i hi hie huse
    subst huse
    have ht : truthy sel.id = true := by rw [hi]; simp [truthy, hie]
    have hg : sel.id.getD "" = i := by rw [hi]; rfl
    simp only [deleteCommand, hsel, ht, hg, Bool.and_self, if_true]
    cases h2 : apiDelete i <;> simp [h2]

/-- Witness for C7: deleting the synced `snipB5` calls the remote delete
with id 5 and removes it locally even though the remote delete fails, the
state agreeing with the one a succeeding remote delete produces; deleting
the unsynced `snipA` issues no remote call. -/
theorem delete_remote_only_when_synced_witness :
    (deleteCommand true apiDeleteDown 0 (stateOf [snipB5])).remoteDeleteCalls
        = ["5"] ∧
    getLocalSnippets (deleteCommand true apiDeleteDown 0 (stateOf [snipB5])).state
        = [] ∧
    (deleteCommand true apiDeleteDown 0 (stateOf [snipB5])).state
        = (deleteCommand true apiDeleteOk 0 (stateOf [snipB5])).state ∧
    (deleteCommand true apiDeleteOk 0 (stateOf [snipA])).remoteDeleteCalls
        = [] := by
  obtain ⟨h1, h2, h3, h4⟩ := delete_remote_only_when_synced true
    apiDeleteDown apiDeleteOk 0 (stateOf [snipB5]) snipB5 rfl
  obtain ⟨g1, g2, g3, g4⟩ := delete_remote_only_when_synced true
    apiDeleteOk apiDeleteDown 0 (stateOf [snipA]) snipA rfl
  exact ⟨h4 "5" rfl rfl rfl, h1, h2, g3 rfl⟩

/-- Claim C10: appending a snippet leaves every previously stored snippet
unchanged in its original position, adds exactly the one new element at the
end, and changes no persisted key other than the snippets slot. -/
theorem saveLocally_frame (snippet : Snippet) (g : GlobalState) :
    getLocalSnippets (saveLocally snippet g)
        = getLocalSnippets g ++ [snippet] ∧
    (∀ i : Nat, i < (getLocalSnippets g).length →
      (getLocalSnippets (saveLocally snippet g))[i]?
        = (getLocalSnippets g)[i]?) ∧
    (getLocalSnippets (saveLocally snippet g)).length
        = (getLocalSnippets g).length + 1 ∧
    (getLocalSnippets (saveLocally snippet g)).getLast? = some snippet ∧
    (∀ k : String, k ≠ "snippets" → saveLocally snippet g k = g k) := by
  have hlist : getLocalSnippets (saveLocally snippet g)
      = getLocalSnippets g ++ [snippet] := getLocalSnippets_update g _
  refine ⟨hlist, ?_, ?_, ?_, ?_⟩
  · intro i hi
    rw [hlist, List.getElem?_append, if_pos hi]
  · rw [hlist]
    simp
  · rw [hlist, List.getLast?_concat]
  · intro k hk
    simp [saveLocally, GlobalState.update, hk]

/-- Witness for C10: appending `snipA` over a store holding `snipB5` keeps
slot 0, yields length 2, and leaves an unrelated key untouched. -/
theorem saveLocally_frame_witness :
    getLocalSnippets (saveLocally snipA (stateOf [snipB5]))
        = [snipB5, snipA] ∧
    (getLocalSnippets (saveLocally snipA (stateOf [snipB5])))[0]?
        = (getLocalSnippets (stateOf [snipB5]))[0]? ∧
    (getLocalSnippets (saveLocally snipA (stateOf [snipB5]))).length = 2 ∧
    saveLocally snipA (stateOf [snipB5]) "workspace"
        = stateOf [snipB5] "workspace" := by
  obtain ⟨h1, h2, h3, h4, h5⟩ := saveLocally_frame snipA (stateOf [snipB5])
  exact ⟨h1, h2 0 (by decide), h3, h5 "workspace" (by decide)⟩

/-- The boolean success test of line 36 holds exactly when the status code
is present and in the 200-299 range. -/
theorem statusSuccess_iff (sc : Option Nat) :
    statusSuccess sc = true ↔ ∃ n : Nat, sc = some n ∧ 200 ≤ n ∧ n ≤ 299 := by
  cases sc with
  | none => simp [statusSuccess]
  | some n =>
      simp only [statusSuccess, Bool.and_eq_true, bne_iff_ne, ne_eq,
        decide_eq_true_eq, Option.some.injEq]
      constructor
      · rintro ⟨⟨h0, h2⟩, h3⟩
        exact ⟨n, rfl, h2, by omega⟩
      · rintro ⟨m, rfl, h2, h3⟩
        exact ⟨⟨by omega, h2⟩, by omega⟩

/-- Claim C8: every remote client operation rejects if and only if the
transport failed or the response status lies outside 200-299 inclusive —
both causes flow through the one rejection channel, the plain error-message
string; a success response with an empty body resolves to the absent value
`null`, and a non-empty parseable success body resolves to the parsed
structured value. -/
theorem remote_error_iff_non2xx_or_transport {J : Type}
    (parse : String → Option J) :
    (∀ t : TransportResult,
      (∃ e : String, makeRequest parse t = Except.error e) ↔
        ¬ t.isSuccessStatus) ∧
    (∀ m : String,
      makeRequest parse (TransportResult.transportFailure m) = Except.error m) ∧
    (∀ n : Nat, 200 ≤ n → n ≤ 299 → ∀ body : String, body.isEmpty = true →
      makeRequest parse (TransportResult.response (some n) body)
        = Except.ok ResponseValue.null) ∧
    (∀ n : Nat, 200 ≤ n → n ≤ 299 → ∀ body : String, ∀ j : J,
      body.isEmpty = false → parse body = some j →
      makeRequest parse (TransportResult.response (some n) body)
        = Except.ok (ResponseValue.parsed j)) ∧
    (∀ (cfg : SnippetlyConfig)
        (server : RequestOptions → Option String → TransportResult)
        (stringify : Snippet → String) (snippet : Snippet),
      (∃ e : String,
          saveSnippet cfg server stringify parse snippet = Except.error e) ↔
        ¬ (server (saveSnippetRequest cfg stringify snippet)
            (some (stringify snippet))).isSuccessStatus) ∧
    (∀ (cfg : SnippetlyConfig)
        (server : RequestOptions → Option String → TransportResult)
        (encode : String → String) (query : Option String),
      (∃ e : String,
          searchSnippets cfg server encode parse query = Except.error e) ↔
        ¬ (server (getRequestOptions cfg (searchPath encode query) "GET")
            none).isSuccessStatus) ∧
    (∀ (cfg : SnippetlyConfig)
        (server : RequestOptions → Option String → TransportResult)
        (id : String),
      (∃ e : String, deleteSnippet cfg server parse id = Except.error e) ↔
        ¬ (server (getRequestOptions cfg ("/snippets/" ++ id) "DELETE")
            none).isSuccessStatus) := by
  have hiff : ∀ t : TransportResult,
      (∃ e : String, makeRequest parse t = Except.error e) ↔
        ¬ t.isSuccessStatus := by
    intro t
    cases t with
    | transportFailure m =>
        simp [makeRequest, TransportResult.isSuccessStatus]
    | response sc body =>
        by_cases h : statusSuccess sc = true
        · have hs : (TransportResult.response sc body).isSuccessStatus := by
            obtain ⟨n, rfl, h2, h3⟩ := (statusSuccess_iff sc).mp h
            exact ⟨n, body, rfl, h2, h3⟩
          simp [makeRequest, h, hs]
        · have hs : ¬ (TransportResult.response sc body).isSuccessStatus := by
            rintro ⟨n, b2, heq, h2, h3⟩
            cases heq
            exact h ((statusSuccess_iff _).mpr ⟨n, rfl, h2, h3⟩)
          have hb : statusSuccess sc = false := by
            cases hq : statusSuccess sc
            · rfl
            · exact absurd hq h
          simp [makeRequest, hb, hs]
  refine ⟨hiff, ?_, ?_, ?_, ?_, ?_, ?_⟩
  · intro m
    rfl
  · intro n h2 h3 body hbe
    have h : statusSuccess (some n) = true :=
      (statusSuccess_iff _).mpr ⟨n, rfl, h2, h3⟩
    simp [makeRequest, h, hbe]
  · intro n h2 h3 body j hbe hp
    have h : statusSuccess (some n) = true :=
      (statusSuccess_iff _).mpr ⟨n, rfl, h2, h3⟩
    simp [makeRequest, h, hbe, hp]
  · intro cfg server stringify snippet
    exact hiff _
  · intro cfg server encode query
    exact hiff _
  · intro cfg server id
    have hmap : ∀ x : Except String (ResponseValue J),
        (∃ e : String, x.map (fun _ => ()) = Except.error e) ↔
          (∃ e : String, x = Except.error e) := by
      intro x
      cases x <;> simp [Except.map]
    unfold deleteSnippet
    exact (hmap _).trans (hiff _)

/-- Witness for C8: a transport failure and a 404 both reject; a 200 with
empty body resolves to the absent value; a 201 with body of length 2 parses
to the structured value 2. -/
theorem remote_error_iff_non2xx_or_transport_witness :
    makeRequest parseLen (TransportResult.transportFailure "refused")
        = Except.error "refused" ∧
    (∃ e : String, makeRequest parseLen
        (TransportResult.response (some 404) "nope") = Except.error e) ∧
    makeRequest parseLen (TransportResult.response (some 200) "")
        = Except.ok ResponseValue.null ∧
    makeRequest parseLen (TransportResult.response (some 201) "ab")
        = Except.ok (ResponseValue.parsed 2) := by
  obtain ⟨hiff, htr, hempty, hparsed, hsave, hsearch, hdel⟩ :=
    remote_error_iff_non2xx_or_transport parseLen
  refine ⟨htr "refused", ?_,
    hempty 200 (by decide) (by decide) "" rfl,
    hparsed 201 (by decide) (by decide) "ab" 2 rfl rfl⟩
  refine (hiff (TransportResult.response (some 404) "nope")).mpr ?_
  rintro ⟨n, b, heq, h2, h3⟩
  cases heq
  omega

/-- Claim C9: the search operation treats the empty-string query like the
absent query — both select the plain full-collection path `/snippets`, so
both produce the identical request and result — while a non-empty query
selects the encoded search path. -/
theorem search_empty_query_requests_full_collection {J : Type}
    (cfg : SnippetlyConfig)
    (server : RequestOptions → Option String → TransportResult)
    (encode : String → String) (parse : String → Option J) :
    searchPath encode (some "") = "/snippets" ∧
    searchPath encode none = "/snippets" ∧
    searchSnippets cfg server encode parse (some "")
        = searchSnippets cfg server encode parse none ∧
    (∀ q : String, q.isEmpty = false →
      searchPath encode (some q) = "/snippets/search?q=" ++ encode q) := by
  refine ⟨rfl, rfl, rfl, ?_⟩
  intro q hq
  simp [searchPath, truthy, hq]

/-- Witness for C9 with the identity encoder: the empty query requests
`/snippets` and yields the same result as the absent query, while a
non-empty query requests the encoded search path. -/
theorem search_empty_query_requests_full_collection_witness :
    searchPath (fun s => s) (some "") = "/snippets" ∧
    searchSnippets cfg0 server200 (fun s => s) parseLen (some "")
        = searchSnippets cfg0 server200 (fun s => s) parseLen none ∧
    searchPath (fun s => s) (some "binary") = "/snippets/search?q=binary" := by
  obtain ⟨h1, h2, h3, h4⟩ := search_empty_query_requests_full_collection cfg0
    server200 (fun s => s) parseLen
  exact ⟨h1, h3, (h4 "binary" rfl).trans rfl⟩

end Snippetly
